import Mathlib

/-!
Shallow embedding of `src/lib/doppler/vis/plot_slugs.py`.

The script reads Forge test output, locates the first line containing the
substring "Logs:", collects the maximal prefix of following lines matching
the regex `\s*\{.*\}\s*$` (each stripped), parses each as JSON, builds a
pandas DataFrame from the record's `data` list, rescales `liquidity` by
`1e18`, and renders one chart per record (rectangles with log-liquidity
heights, a current-tick vertical marker, y-limit from the log of the
maximal liquidity, a title and an output filename derived from the
`timestamp` metadata taken from the first row of the DataFrame).

Modelling conventions:
- a text line is a `List Char`; Python `str.strip` / the regex whitespace
  class are modelled by the ASCII whitespace characters;
- JSON scalar values are `Val` (rationals for numbers, strings); nested
  JSON values inside slug entries are outside the modelled record space;
- a pandas cell is a `Cell`: either a value or NaN (NaN materialises for
  a key that some entry has and this entry lacks);
- `json.loads` is a library boundary and is passed as a parameter
  `parse : Line → Option Rec` (`none` models `json.JSONDecodeError`); a
  line matching the collected pattern that parses successfully is a JSON
  object, hence a `Rec`;
- `np.log` applications are represented symbolically (`Height.hlog`,
  `YLim.ylog`) so that the development stays executable; `Height.hlog q`
  denotes the real number `Real.log q` and `YLim.ylog q` denotes
  `Real.log q * 1.1`, exactly as produced by lines 75 and 103 of the
  source;
- uncaught Python exceptions (KeyError on a missing DataFrame column,
  TypeError from dividing or subtracting a string cell, TypeError from
  `ax.axvline(None)`) are the `PyErr` outcomes; they abort the run.
-/

namespace PlotSlugs

/-- Python ASCII whitespace, the characters stripped by `str.strip()` and
matched by the regex class `\s` on the ASCII range. -/
def isWs (c : Char) : Bool :=
  c = ' ' || c = '\t' || c = '\n' || c = '\r' ||
    c = Char.ofNat 11 || c = Char.ofNat 12

/-- The left curly brace character. -/
def lbrace : Char := Char.ofNat 123

/-- The right curly brace character. -/
def rbrace : Char := Char.ofNat 125

/-- One line of the input text. -/
abbrev Line := List Char

/-- Python `line.strip()`: drop leading and trailing whitespace. -/
def strip (l : Line) : Line :=
  ((l.dropWhile isWs).reverse.dropWhile isWs).reverse

/-- The test `re.match(r'\s*\{.*\}\s*$', line)` from the source: the first
non-whitespace character is `{`, the last non-whitespace character is `}`,
and the two are distinct positions. -/
def matchesJson (l : Line) : Bool :=
  match strip l with
  | [] => false
  | c :: rest => c == lbrace && rest.getLast? == some rbrace

/-- The marker substring "Logs:". -/
def logsMarker : Line := ['L', 'o', 'g', 's', ':']

/-- Boolean list-prefix test. -/
def prefixB : Line → Line → Bool
  | [], _ => true
  | _ :: _, [] => false
  | a :: as, b :: bs => a == b && prefixB as bs

/-- Boolean substring test, modelling Python `pat in line`. -/
def containsSub (pat : Line) : Line → Bool
  | [] => pat.isEmpty
  | c :: cs => prefixB pat (c :: cs) || containsSub pat cs

/-- Python `'Logs:' in line`. -/
def containsLogs (l : Line) : Bool := containsSub logsMarker l

/-- Scan for the first line containing "Logs:"; return the lines after it,
or `none` when no line contains the marker (lines 17-21 of the source). -/
def findLogs : List Line → Option (List Line)
  | [] => none
  | l :: ls => if containsLogs l then some ls else findLogs ls

/-- Collect the maximal prefix of matching lines, each stripped, stopping
at the first non-matching line (lines 27-34 of the source). -/
def collectJson : List Line → List Line
  | [] => []
  | l :: ls => if matchesJson l then strip l :: collectJson ls else []

/-- The whole extraction phase: `none` models the "No logs found" fatal
exit; `some []` will later trigger the "No JSON data found" fatal exit. -/
def extract (lines : List Line) : Option (List Line) :=
  (findLogs lines).map collectJson

/-- A JSON scalar value occurring in a record: numbers are modelled as
rationals, strings as Lean strings. Nested arrays or objects inside slug
entries are outside the modelled record space. -/
inductive Val where
  | num (q : ℚ)
  | str (s : String)
  deriving DecidableEq

/-- One slug entry of a record's `data` list: a JSON object, modelled as an
association list from keys to scalar values (Python dicts have no duplicate
keys, so first-match lookup is faithful). -/
abbrev Entry := List (String × Val)

/-- One parsed JSON record. `top` holds the scalar fields beside `data` at
the top level of the object; `dataField` is the value of the key `data`
when it is present and is a list (`data.get('data', [])` yields `[]` when
the key is absent). -/
structure Rec where
  top : List (String × Val)
  dataField : Option (List Entry)
  deriving DecidableEq

/-- The keys of one entry. -/
def keys (e : Entry) : List String := e.map Prod.fst

/-- Pandas `c in df.columns` for `df = pd.DataFrame(slugs)`: the column
exists exactly when some entry carries the key. -/
def hasCol (slugs : List Entry) (c : String) : Bool :=
  decide (∃ e ∈ slugs, c ∈ keys e)

/-- A DataFrame cell: a value, or NaN for a key this entry lacks while
another entry has it (so the column exists). -/
inductive Cell where
  | nan
  | val (v : Val)
  deriving DecidableEq

/-- The cell of entry `e` in column `c` (assuming the column exists). -/
def cellOf (e : Entry) (c : String) : Cell :=
  match e.lookup c with
  | some v => .val v
  | none => .nan

/-- The metadata lookup `df[c].iloc[0] if c in df.columns else None`
(lines 58 and 60 of the source): `none` is Python `None` (column absent),
`some .nan` is a NaN cell in the first row. -/
def metaOf (slugs : List Entry) (c : String) : Option Cell :=
  match slugs with
  | [] => none
  | e :: _ => if hasCol slugs c then some (cellOf e c) else none

/-- An uncaught Python exception aborting the run. -/
inductive PyErr where
  | keyError (c : String)
  | typeError (m : String)
  deriving DecidableEq

/-- The raw `liquidity` column of the DataFrame. -/
def liqCells (slugs : List Entry) : List Cell :=
  slugs.map (fun e => cellOf e "liquidity")

/-- Scale one liquidity cell: `df['liquidity'] / 1e18` (line 55 of the
source). Both `1e18` and the integral raw values are exactly representable
in float64 and the quotients taken in the claims are exact, so rational
division is faithful; dividing a string cell raises TypeError. -/
def scaleLiq : List Cell → Except PyErr (List Cell)
  | [] => .ok []
  | .val (.str _) :: _ =>
      .error (.typeError "unsupported operand type for division")
  | .val (.num q) :: cs =>
      (scaleLiq cs).map (fun r => .val (.num (q / 10 ^ 18)) :: r)
  | .nan :: cs => (scaleLiq cs).map (fun r => .nan :: r)

/-- Pandas `Series.max()` with the default `skipna=True`: the maximum of
the numeric cells, NaN when every cell is NaN. Used on the scaled
liquidity column, whose cells are numbers or NaN. -/
def cellsMax (cs : List Cell) : Cell :=
  match cs.filterMap (fun c => match c with
      | .val (.num q) => some q
      | _ => none) with
  | [] => .nan
  | q :: qs => .val (.num (qs.foldl max q))

/-- Python subtraction of two cell values, as in
`width = tick_upper - tick_lower` (line 74 of the source): number minus
number is a number, NaN propagates, a string operand raises TypeError. -/
def subCell : Cell → Cell → Except PyErr Cell
  | .val (.num a), .val (.num b) => .ok (.val (.num (a - b)))
  | .val (.num _), .nan => .ok .nan
  | .nan, .val (.num _) => .ok .nan
  | .nan, .nan => .ok .nan
  | _, _ => .error (.typeError "unsupported operand type for subtraction")

/-- The per-row width computations of the rendering loop; the first string
tick cell aborts with TypeError, matching where the source first combines
the tick values arithmetically. -/
def rowWidths : List Entry → Except PyErr (List Cell)
  | [] => .ok []
  | e :: es => do
      let w ← subCell (cellOf e "tickUpper") (cellOf e "tickLower")
      let ws ← rowWidths es
      .ok (w :: ws)

/-- The height of one rectangle, kept symbolic:
`np.log(liquidity) if liquidity > 0 else 0` (line 75 of the source).
`hlog q` denotes the real `Real.log q`; `hzero` denotes `0`. A NaN cell
compares false against `0`, giving height `0`; string cells cannot reach
this point because scaling would have raised beforehand. -/
inductive Height where
  | hlog (q : ℚ)
  | hzero
  deriving DecidableEq

/-- Height of a scaled liquidity cell. -/
def heightOf : Cell → Height
  | .val (.num q) => if 0 < q then .hlog q else .hzero
  | _ => .hzero

/-- The upper y-axis limit, kept symbolic:
`np.log(max_liquidity) * 1.1 if max_liquidity > 0 else 1` (line 103 of the
source). `ylog q` denotes `Real.log q * 1.1`; `yone` denotes `1`. -/
inductive YLim where
  | ylog (q : ℚ)
  | yone
  deriving DecidableEq

/-- Upper y-limit from the scaled liquidity maximum. -/
def ylimOf : Cell → YLim
  | .val (.num q) => if 0 < q then .ylog q else .yone
  | _ => .yone

/-- Decimal digits of a natural number (greatest first), with fuel for
structural recursion; `fuel ≥ n + 1` suffices. -/
def natDigitsAux : ℕ → ℕ → List Char → List Char
  | 0, _, acc => acc
  | fuel + 1, n, acc =>
      if n < 10 then Char.ofNat (48 + n) :: acc
      else natDigitsAux fuel (n / 10) (Char.ofNat (48 + n % 10) :: acc)

/-- Decimal string of a natural number. -/
def natStr (n : ℕ) : String := ⟨natDigitsAux (n + 1) n []⟩

/-- Decimal string of an integer. -/
def intStr : ℤ → String
  | .ofNat n => natStr n
  | .negSucc n => "-" ++ natStr (n + 1)

/-- Python string formatting of a scalar value, as used by the f-strings
of the source. An integral number models the formatting of an `int64`
cell, the case where every entry carries an integral value so the pandas
column keeps integer dtype. Caveat: when some entry lacks the key of an
otherwise numeric column, pandas promotes the column to float64 and
Python prints an integral cell with a trailing ".0" (for example
"12345.0"); that promoted formatting is not modelled here, so every
theorem about a rendered string restricts itself to unpromoted columns
(see `colInt64`). The non-integral branch is a placeholder that no claim
exercises (Python float formatting is not modelled). -/
def pyStrVal : Val → String
  | .num q => if q.den = 1 then intStr q.num
              else intStr q.num ++ "/" ++ natStr q.den
  | .str s => s

/-- Python string formatting of a cell; a NaN cell prints as "nan". -/
def pyStrCell : Cell → String
  | .nan => "nan"
  | .val v => pyStrVal v

/-- The output filename (lines 118-122 of the source): the timestamp
metadata when it is not `None`, else the ordinal index of the record
within the collected block. -/
def fnameOf (ts : Option Cell) (i : ℕ) : String :=
  match ts with
  | some c => "slug_plot_" ++ pyStrCell c ++ ".png"
  | none => "slug_plot_" ++ natStr i ++ ".png"

/-- The chart title (lines 106-109 of the source). -/
def titleOf (ts : Option Cell) : String :=
  match ts with
  | some c => "Liquidity Positions (Slugs) at Timestamp " ++ pyStrCell c
  | none => "Liquidity Positions (Slugs)"

/-- The observable outcome of rendering one record: the rectangle heights
in row order, the argument of the `ax.axvline` marker call, the title, the
upper y-limit and the saved filename. Other decorations (x-limits, axis
labels, legend, grid) do not bear on any claim and are not recorded. -/
structure Render where
  heights : List Height
  marker : Cell
  title : String
  ylim : YLim
  file : String
  deriving DecidableEq

/-- The fate of one collected line (lines 40-123 of the source):
skipped with the "Error parsing JSON" diagnostic, skipped with the
"No slug data found" diagnostic, rendered and saved, or aborted by an
uncaught exception. -/
inductive Step where
  | skipParse
  | skipNoData
  | saved (rd : Render)
  | err (e : PyErr)
  deriving DecidableEq

/-- Whether a step aborted the run. -/
def Step.isErr : Step → Bool
  | .err _ => true
  | _ => false

/-- Whether a step saved a chart. -/
def Step.isSaved : Step → Bool
  | .saved _ => true
  | _ => false

/-- The filename a step saved, when it saved one. -/
def Step.fileOf : Step → Option String
  | .saved rd => some rd.file
  | _ => none

/-- The diagnostic printed by a skipping step: the prefix of
`f"Error parsing JSON: {e}"` for a parse failure, and the fixed
"No slug data found in the JSON." message for a missing or empty `data`
list. -/
def stepDiag : Step → Option String
  | .skipParse => some "Error parsing JSON: "
  | .skipNoData => some "No slug data found in the JSON."
  | _ => none

/-- Process one parsed record (lines 46-123 of the source), in source
order: empty or missing `data` skips; scaling the `liquidity` column
raises KeyError when the column is absent and TypeError on a string cell;
the `timestamp` and `currentTick` metadata come from the first DataFrame
row; `df['tickUpper'].max()` and `df['tickLower'].min()` raise KeyError on
an absent column; the row loop looks up `slugName` (KeyError on an absent
column, at the first row) and subtracts tick cells (TypeError on a string
cell); `ax.axvline(current_tick)` raises TypeError when `currentTick` is
`None`, because matplotlib compares the value against the float axis
bounds; otherwise the figure is saved. -/
def processRec (i : ℕ) (r : Rec) : Step :=
  let slugs := r.dataField.getD []
  if slugs.isEmpty then .skipNoData
  else if ¬ hasCol slugs "liquidity" then .err (.keyError "liquidity")
  else match scaleLiq (liqCells slugs) with
  | .error e => .err e
  | .ok scaled =>
    let tsM := metaOf slugs "timestamp"
    let ctM := metaOf slugs "currentTick"
    let maxLiq := cellsMax scaled
    if ¬ hasCol slugs "tickUpper" then .err (.keyError "tickUpper")
    else if ¬ hasCol slugs "tickLower" then .err (.keyError "tickLower")
    else if ¬ hasCol slugs "slugName" then .err (.keyError "slugName")
    else match rowWidths slugs with
    | .error e => .err e
    | .ok _ =>
      match ctM with
      | none => .err (.typeError "axvline with None")
      | some ct =>
          .saved { heights := scaled.map heightOf
                   marker := ct
                   title := titleOf tsM
                   ylim := ylimOf maxLiq
                   file := fnameOf tsM i }

/-- Process one collected line: parse it (the `json.loads` boundary is the
`parse` parameter; `none` is a `JSONDecodeError`), then process the
record. -/
def stepLine (parse : Line → Option Rec) (i : ℕ) (l : Line) : Step :=
  match parse l with
  | none => .skipParse
  | some r => processRec i r

/-- Run the per-record loop from ordinal `i` on: collect the saved
filenames in order; an uncaught exception stops the loop and is reported,
keeping the files already saved. -/
def runSteps (parse : Line → Option Rec) :
    ℕ → List Line → List String × Option PyErr
  | _, [] => ([], none)
  | i, l :: ls =>
      match stepLine parse i l with
      | .err e => ([], some e)
      | .saved rd =>
          let r := runSteps parse (i + 1) ls
          (rd.file :: r.1, r.2)
      | _ => runSteps parse (i + 1) ls

/-- The observable outcome of the whole process: the two fatal early exits
(status 1), an uncaught exception (non-zero status, files saved so far),
or the normal completion (status 0, all saved files). -/
inductive RunOutcome where
  | fatalNoLogs
  | fatalNoJson
  | crashed (files : List String) (e : PyErr)
  | success (files : List String)
  deriving DecidableEq

/-- Whether the process exits with status zero. -/
def exitZero : RunOutcome → Bool
  | .success _ => true
  | _ => false

/-- The message the process prints at the end: the two fatal diagnostics,
the completion message, or none of its own on an uncaught exception (the
interpreter prints a traceback to standard error). -/
def outcomeMsg : RunOutcome → Option String
  | .fatalNoLogs => some "No logs found in the Forge test output."
  | .fatalNoJson => some "No JSON data found in the Forge test output."
  | .success _ => some "Charts have been generated and saved."
  | .crashed _ _ => none

/-- The whole program on the list of input lines. -/
def run (parse : Line → Option Rec) (lines : List Line) : RunOutcome :=
  match findLogs lines with
  | none => .fatalNoLogs
  | some rest =>
      let js := collectJson rest
      if js.isEmpty then .fatalNoJson
      else
        match runSteps parse 0 js with
        | (fs, none) => .success fs
        | (fs, some e) => .crashed fs e

/-! Helper lemmas shared by several claims. -/

theorem findLogs_append_of_none (a : List Line) (ls : List Line)
    (ha : ∀ x ∈ a, containsLogs x = false) :
    findLogs (a ++ ls) = findLogs ls := by
  induction a with
  | nil => rfl
  | cons l a ih =>
      have h1 : containsLogs l = false := ha l (List.mem_cons_self _ _)
      simp only [List.cons_append, findLogs, h1, Bool.false_eq_true,
        if_false]
      exact ih fun x hx => ha x (List.mem_cons_of_mem _ hx)

theorem collectJson_maximal (b : List Line) (c : Line) (d : List Line)
    (hb : ∀ x ∈ b, matchesJson x = true)
    (hc : matchesJson c = false) :
    collectJson (b ++ c :: d) = b.map strip := by
  induction b with
  | nil =>
      simp only [List.nil_append, collectJson, hc, Bool.false_eq_true,
        if_false, List.map_nil]
  | cons l b ih =>
      have h1 : matchesJson l = true := hb l (List.mem_cons_self _ _)
      simp only [List.cons_append, collectJson, h1, if_true, List.map_cons]
      exact List.cons_eq_cons.mpr
        ⟨rfl, ih fun x hx => hb x (List.mem_cons_of_mem _ hx)⟩

theorem mem_keys_of_lookup (e : Entry) (k : String) (v : Val)
    (h : e.lookup k = some v) : k ∈ keys e := by
  induction e with
  | nil => simp [List.lookup] at h
  | cons p ps ih =>
      rw [List.lookup] at h
      by_cases hk : k == p.1
      · have : k = p.1 := by exact_mod_cast eq_of_beq hk
        simp [keys, this]
      · rw [Bool.not_eq_true] at hk
        rw [hk] at h
        exact List.mem_cons_of_mem _ (ih h)

theorem hasCol_of_mem_first (e0 : Entry) (rest : List Entry) (k : String)
    (h : k ∈ keys e0) : hasCol (e0 :: rest) k = true := by
  simp only [hasCol, decide_eq_true_eq]
  exact ⟨e0, List.mem_cons_self _ _, h⟩

theorem metaOf_first_lookup (e0 : Entry) (rest : List Entry) (k : String)
    (v : Val) (h : e0.lookup k = some v) :
    metaOf (e0 :: rest) k = some (.val v) := by
  rw [metaOf, if_pos]
  · rw [cellOf, h]
  · rw [hasCol_of_mem_first e0 rest k (mem_keys_of_lookup e0 k v h)]

theorem processRec_congr (i : ℕ) (r r' : Rec)
    (h : r.dataField = r'.dataField) : processRec i r = processRec i r' := by
  unfold processRec
  rw [h]

/-- Characterisation of a saved step: the record reached the end of the
rendering loop, and the rendered artefacts are the ones the source
computes. -/
theorem processRec_saved_spec (i : ℕ) (r : Rec) (rd : Render)
    (h : processRec i r = .saved rd) :
    ∃ scaled ct,
      scaleLiq (liqCells (r.dataField.getD [])) = .ok scaled ∧
      metaOf (r.dataField.getD []) "currentTick" = some ct ∧
      rd = { heights := scaled.map heightOf
             marker := ct
             title := titleOf (metaOf (r.dataField.getD []) "timestamp")
             ylim := ylimOf (cellsMax scaled)
             file := fnameOf (metaOf (r.dataField.getD []) "timestamp") i } := by
  unfold processRec at h
  dsimp only at h
  split at h
  · exact absurd h (by simp)
  split at h
  · exact absurd h (by simp)
  split at h
  next e heq => exact absurd h (by simp)
  next scaled heq =>
    split at h
    · exact absurd h (by simp)
    split at h
    · exact absurd h (by simp)
    split at h
    · exact absurd h (by simp)
    split at h
    next e heq2 => exact absurd h (by simp)
    next ws heq2 =>
      split at h
      next hct => exact absurd h (by simp)
      next ct hct =>
        refine ⟨scaled, ct, heq, hct, ?_⟩
        cases h
        rfl

/-! Claim C3: the collected JSON block is the maximal prefix of
consecutive matching lines after the first "Logs:" line. -/

/-- C3. For input made of lines `a` without the marker, a marker line
`l0`, `N` matching lines `b`, one non-matching line `c` and arbitrary
further lines `d`, the extraction collects exactly the lines of `b`, each
stripped; the lines of `d` are never consulted (the result does not
depend on them). -/
theorem C3_extraction_boundary (a : List Line) (l0 : Line) (b : List Line)
    (c : Line) (d : List Line)
    (ha : ∀ x ∈ a, containsLogs x = false)
    (h0 : containsLogs l0 = true)
    (hb : ∀ x ∈ b, matchesJson x = true)
    (hc : matchesJson c = false) :
    extract (a ++ l0 :: (b ++ c :: d)) = some (b.map strip) := by
  unfold extract
  rw [findLogs_append_of_none a _ ha]
  simp only [findLogs, h0, if_true, Option.map_some']
  exact congrArg some (collectJson_maximal b c d hb hc)

def lineRun : Line := ['R', 'u', 'n']
def lineLogs : Line := [' ', 'L', 'o', 'g', 's', ':']
def lineJa : Line := [' ', lbrace, 'a', rbrace, ' ']
def lineJb : Line := [lbrace, rbrace]
def lineStop : Line := ['d', 'o', 'n', 'e']
def lineJc : Line := [lbrace, 'z', rbrace]

/-- Witness for C3 on a concrete five-line input: two matching lines are
collected stripped, the matching line after the break is not. -/
theorem C3_extraction_boundary_witness :
    extract ([lineRun] ++ lineLogs :: ([lineJa, lineJb] ++ lineStop :: [lineJc])) =
      some ([lineJa, lineJb].map strip) :=
  C3_extraction_boundary [lineRun] lineLogs [lineJa, lineJb] lineStop [lineJc]
    (by decide) (by decide) (by decide) (by decide)

/-! Claim C2: the `timestamp` and `currentTick` metadata come from the
first entry of the record's `data` list; top-level fields beside `data`
are never consulted. -/

/-- C2. If the first `data` entry carries `timestamp` and `currentTick`,
the metadata equals those entry values, and every rendered artefact
(filename, title, marker) is computed from them; moreover the processing
of a record is invariant under arbitrary changes of the record's top-level
fields (they are never consulted). -/
theorem C2_metadata_from_first_entry (i : ℕ) (r r' : Rec) (e0 : Entry)
    (rest : List Entry)
    (hd : r.dataField = some (e0 :: rest))
    (htop : r'.dataField = r.dataField)
    (v w : Val)
    (hts : e0.lookup "timestamp" = some v)
    (hct : e0.lookup "currentTick" = some w) :
    processRec i r' = processRec i r ∧
    metaOf (e0 :: rest) "timestamp" = some (.val v) ∧
    metaOf (e0 :: rest) "currentTick" = some (.val w) ∧
    ∀ rd, processRec i r = .saved rd →
      rd.file = fnameOf (some (.val v)) i ∧
      rd.title = titleOf (some (.val v)) ∧
      rd.marker = .val w := by
  have hmts := metaOf_first_lookup e0 rest "timestamp" v hts
  have hmct := metaOf_first_lookup e0 rest "currentTick" w hct
  refine ⟨processRec_congr i r' r htop, hmts, hmct, ?_⟩
  intro rd hsaved
  obtain ⟨scaled, ct, hscale, hctm, hrd⟩ := processRec_saved_spec i r rd hsaved
  rw [hd, Option.getD_some] at hctm hrd
  have hctw : ct = .val w := by
    have := hctm.symm.trans hmct
    exact Option.some.inj this
  subst hrd
  subst hctw
  exact ⟨by simp only [hmts], by simp only [hmts], rfl⟩

def entW2 : Entry :=
  [("tickLower", .num 0), ("tickUpper", .num 10),
   ("liquidity", .num (10 ^ 18)), ("slugName", .str "A"),
   ("timestamp", .num 7), ("currentTick", .num 4)]

def recW2 : Rec := { top := [], dataField := some [entW2] }

/-- The same record with conflicting metadata planted at the top level. -/
def recW2top : Rec :=
  { top := [("timestamp", .num 999), ("currentTick", .num 999)]
    dataField := some [entW2] }

/-- The chart rendered for `recW2`. -/
def renderW2 : Render :=
  { heights := [.hlog 1]
    marker := .val (.num 4)
    title := "Liquidity Positions (Slugs) at Timestamp 7"
    ylim := .ylog 1
    file := "slug_plot_7.png" }

/-- Witness for C2: planting different top-level metadata changes nothing,
and the rendered filename and marker come from the first entry. -/
theorem C2_metadata_from_first_entry_witness :
    processRec 0 recW2top = processRec 0 recW2 ∧
    metaOf [entW2] "timestamp" = some (.val (.num 7)) ∧
    metaOf [entW2] "currentTick" = some (.val (.num 4)) ∧
    renderW2.file = fnameOf (some (.val (.num 7))) 0 ∧
    renderW2.marker = .val (.num 4) := by
  have h := C2_metadata_from_first_entry 0 recW2 recW2top entW2 []
    rfl rfl (.num 7) (.num 4) (by decide) (by decide)
  have hs : processRec 0 recW2 = .saved renderW2 := by
    with_unfolding_all decide
  obtain ⟨h1, h2, h3, h4⟩ := h
  obtain ⟨hf, ht, hm⟩ := h4 renderW2 hs
  exact ⟨h1, h2, h3, hf, hm⟩

/-! Claim C1: the source calls `ax.axvline(current_tick, ...)`
unconditionally (line 100); when the `currentTick` metadata is absent the
variable is Python `None`, and matplotlib's `axvline` compares the value
against the float axis bounds, raising an uncaught TypeError that aborts
the whole run. The claim (marker only when present, rendering succeeds
when absent) describes the evident intent — the sibling `timestamp`
metadata is guarded with `is not None` at both of its uses while
`current_tick` is not — so this is recorded as a code bug. -/

def entC1 : Entry :=
  [("tickLower", .num 0), ("tickUpper", .num 100),
   ("liquidity", .num (10 ^ 18)), ("slugName", .str "LB")]

/-- A well-formed record whose entries simply lack `currentTick`. -/
def recC1 : Rec := { top := [], dataField := some [entC1] }

/-- C1 (code bug, evaluation at the failing input): the record parses,
its `data` is non-empty and every mandatory field is present, yet because
`currentTick` is absent the run aborts in `ax.axvline` instead of saving
a chart without a marker line. -/
theorem C1_axvline_none_aborts :
    metaOf (recC1.dataField.getD []) "currentTick" = none ∧
    processRec 0 recC1 = .err (.typeError "axvline with None") ∧
    Step.isSaved (processRec 0 recC1) = false := by
  with_unfolding_all decide

/-! Claim C6: heights are `log` of the scaled liquidity exactly when it is
positive and `0` otherwise; the y-limit is `log(max_liquidity) * 1.1` when
the maximum is positive and `1` otherwise; the logarithm is never applied
to a non-positive value. -/

theorem heightOf_hlog_pos (c : Cell) (p : ℚ) (h : heightOf c = .hlog p) :
    0 < p := by
  cases c with
  | nan => exact absurd h (by simp [heightOf])
  | val v =>
      cases v with
      | str s => exact absurd h (by simp [heightOf])
      | num q =>
          rw [heightOf] at h
          split at h
          next hq => cases h; exact hq
          next hq => exact absurd h (by simp)

theorem ylimOf_ylog_pos (c : Cell) (p : ℚ) (h : ylimOf c = .ylog p) :
    0 < p := by
  cases c with
  | nan => exact absurd h (by simp [ylimOf])
  | val v =>
      cases v with
      | str s => exact absurd h (by simp [ylimOf])
      | num q =>
          rw [ylimOf] at h
          split at h
          next hq => cases h; exact hq
          next hq => exact absurd h (by simp)

/-- C6. The rectangle height is the (symbolic) natural logarithm of the
scaled liquidity exactly when that liquidity is positive and zero
otherwise, NaN included; the upper y-limit is `log(max_liquidity) * 1.1`
exactly when the maximum is positive and `1` otherwise; and in every
rendered chart each logarithm application (`hlog` in a height, `ylog` in
the y-limit) has a strictly positive argument. -/
theorem C6_log_only_on_positive (q : ℚ) (i : ℕ) (r : Rec) (rd : Render) :
    (0 < q → heightOf (.val (.num q)) = .hlog q) ∧
    (q ≤ 0 → heightOf (.val (.num q)) = .hzero) ∧
    heightOf .nan = .hzero ∧
    (0 < q → ylimOf (.val (.num q)) = .ylog q) ∧
    (q ≤ 0 → ylimOf (.val (.num q)) = .yone) ∧
    ylimOf .nan = .yone ∧
    (processRec i r = .saved rd →
      (∃ scaled, scaleLiq (liqCells (r.dataField.getD [])) = .ok scaled ∧
          rd.heights = scaled.map heightOf ∧
          rd.ylim = ylimOf (cellsMax scaled)) ∧
      (∀ p, Height.hlog p ∈ rd.heights → 0 < p) ∧
      (∀ p, rd.ylim = .ylog p → 0 < p)) := by
  refine ⟨fun h => by simp [heightOf, if_pos h],
    fun h => by simp [heightOf, if_neg (not_lt.mpr h)],
    rfl,
    fun h => by simp [ylimOf, if_pos h],
    fun h => by simp [ylimOf, if_neg (not_lt.mpr h)],
    rfl,
    fun hsaved => ?_⟩
  obtain ⟨scaled, ct, hscale, hctm, hrd⟩ :=
    processRec_saved_spec i r rd hsaved
  subst hrd
  refine ⟨⟨scaled, hscale, rfl, rfl⟩, ?_, ?_⟩
  · intro p hp
    obtain ⟨c, _, hc⟩ := List.mem_map.mp hp
    exact heightOf_hlog_pos c p hc
  · intro p hp
    exact ylimOf_ylog_pos _ p hp

/-- Witness for C6: concrete heights and y-limits on positive, zero and
rendered inputs. -/
theorem C6_log_only_on_positive_witness :
    heightOf (.val (.num 1)) = .hlog 1 ∧
    heightOf (.val (.num 0)) = .hzero ∧
    ylimOf (.val (.num 1)) = .ylog 1 ∧
    ylimOf (.val (.num 0)) = .yone ∧
    (0 : ℚ) < 1 := by
  have hs : processRec 0 recW2 = .saved renderW2 := by
    with_unfolding_all decide
  refine ⟨(C6_log_only_on_positive 1 0 recW2 renderW2).1 one_pos,
    (C6_log_only_on_positive 0 0 recW2 renderW2).2.1 le_rfl,
    (C6_log_only_on_positive 1 0 recW2 renderW2).2.2.2.1 one_pos,
    (C6_log_only_on_positive 0 0 recW2 renderW2).2.2.2.2.1 le_rfl,
    ((C6_log_only_on_positive 1 0 recW2 renderW2).2.2.2.2.2.2 hs).2.1 1
      (by with_unfolding_all decide)⟩

/-! Claim C8: every liquidity value is divided by `10^18`, and
`2 * 10^18` scales to exactly `2`. -/

/-- The pointwise scaling function underlying `scaleLiq` on numeric and
NaN cells. -/
def scaleCellF : Cell → Cell
  | .val (.num q) => .val (.num (q / 10 ^ 18))
  | c => c

theorem scaleLiq_ok_map (cs : List Cell) (out : List Cell)
    (h : scaleLiq cs = .ok out) : out = cs.map scaleCellF := by
  induction cs generalizing out with
  | nil =>
      rw [scaleLiq] at h
      cases h
      rfl
  | cons c cs ih =>
      cases c with
      | nan =>
          rw [scaleLiq] at h
          cases hrec : scaleLiq cs with
          | error e => rw [hrec] at h; exact absurd h (by simp [Except.map])
          | ok r =>
              rw [hrec] at h
              simp only [Except.map] at h
              cases h
              simp [List.map_cons, scaleCellF, ih r hrec]
      | val v =>
          cases v with
          | str s => exact absurd h (by simp [scaleLiq])
          | num q =>
              rw [scaleLiq] at h
              cases hrec : scaleLiq cs with
              | error e =>
                  rw [hrec] at h; exact absurd h (by simp [Except.map])
              | ok r =>
                  rw [hrec] at h
                  simp only [Except.map] at h
                  cases h
                  simp [List.map_cons, scaleCellF, ih r hrec]

/-- C8. In any successfully scaled liquidity column, the cell of row `k`
is the raw value divided by `10 ^ 18`; for raw value `2 * 10 ^ 18` it is
exactly `2`. -/
theorem C8_liquidity_scaled_exactly (slugs : List Entry)
    (scaled : List Cell)
    (h : scaleLiq (liqCells slugs) = .ok scaled)
    (k : ℕ) (q : ℚ)
    (hk : (liqCells slugs).get? k = some (.val (.num q))) :
    scaled.get? k = some (.val (.num (q / 10 ^ 18))) ∧
    (q = 2 * 10 ^ 18 → scaled.get? k = some (.val (.num 2))) := by
  have hmap := scaleLiq_ok_map _ _ h
  subst hmap
  constructor
  · rw [List.get?_map, hk]
    rfl
  · intro hq
    subst hq
    rw [List.get?_map, hk]
    have h2 : (2 * 10 ^ 18 : ℚ) / 10 ^ 18 = 2 := by norm_num
    simp [Option.map_some', scaleCellF, h2]

def entW8 : Entry :=
  [("tickLower", .num 0), ("tickUpper", .num 10),
   ("liquidity", .num (2 * 10 ^ 18)), ("slugName", .str "A")]

/-- Witness for C8: the table built from an entry with raw liquidity
`2 * 10^18` carries the scaled value exactly `2`. -/
theorem C8_liquidity_scaled_exactly_witness :
    ([Cell.val (.num 2)] : List Cell).get? 0 = some (.val (.num 2)) :=
  (C8_liquidity_scaled_exactly [entW8] [.val (.num 2)]
    (by with_unfolding_all rfl) 0 (2 * 10 ^ 18) rfl).2 rfl

/-! Claim C9: output filenames. -/

/-- The `c` column of the table is inferred as int64: every entry carries
the key with an integral numeric value. When instead some entry of a
numeric column lacks the key, pandas promotes the column to float64 and
the f-strings of the source print an integral cell with a trailing ".0"
(for example "12345.0" instead of "12345"); that promoted formatting is
not modelled by `pyStrVal`, so the filename theorem below asserts its
integral case only for int64 columns. -/
def colInt64 (slugs : List Entry) (c : String) : Bool :=
  slugs.all fun e =>
    match e.lookup c with
    | some (.num q) => q.den == 1
    | _ => false

/-- C9. A successfully rendered record is saved as
`slug_plot_<timestamp>.png` when the timestamp metadata is present, and
as `slug_plot_<i>.png` with `i` the record's 0-based ordinal within the
collected block otherwise. The integral case is asserted for int64
timestamp columns (`colInt64`: every entry carries an integral
timestamp), where pandas does not promote the column to float64; in a
promoted column Python would render the value with a trailing ".0" and
the file would be named accordingly, a formatting case outside this
model. The fallback ordinal case is dtype-independent. -/
theorem C9_output_filename (i : ℕ) (r : Rec) (rd : Render)
    (h : processRec i r = .saved rd) :
    (metaOf (r.dataField.getD []) "timestamp" = none →
        rd.file = "slug_plot_" ++ natStr i ++ ".png") ∧
    (∀ n : ℤ,
        colInt64 (r.dataField.getD []) "timestamp" = true →
        metaOf (r.dataField.getD []) "timestamp" =
          some (.val (.num (n : ℚ))) →
        rd.file = "slug_plot_" ++ intStr n ++ ".png") := by
  obtain ⟨scaled, ct, hscale, hctm, hrd⟩ := processRec_saved_spec i r rd h
  subst hrd
  constructor
  · intro hts
    simp [hts, fnameOf]
  · intro n hint hts
    simp [hts, fnameOf, pyStrCell, pyStrVal, Rat.den_intCast,
      Rat.num_intCast]

def entW9a : Entry :=
  [("tickLower", .num 0), ("tickUpper", .num 10),
   ("liquidity", .num (10 ^ 18)), ("slugName", .str "A"),
   ("timestamp", .num 12345), ("currentTick", .num 3)]

def recW9a : Rec := { top := [], dataField := some [entW9a] }

def renderW9a : Render :=
  { heights := [.hlog 1]
    marker := .val (.num 3)
    title := "Liquidity Positions (Slugs) at Timestamp 12345"
    ylim := .ylog 1
    file := "slug_plot_12345.png" }

def entW9b : Entry :=
  [("tickLower", .num 0), ("tickUpper", .num 10),
   ("liquidity", .num (10 ^ 18)), ("slugName", .str "B"),
   ("currentTick", .num 3)]

def recW9b : Rec := { top := [], dataField := some [entW9b] }

def renderW9b : Render :=
  { heights := [.hlog 1]
    marker := .val (.num 3)
    title := "Liquidity Positions (Slugs)"
    ylim := .ylog 1
    file := "slug_plot_2.png" }

/-- Witness for C9: timestamp `12345` gives `slug_plot_12345.png`; a
timestamp-less record processed as the third (index 2) of the block gives
`slug_plot_2.png`. -/
theorem C9_output_filename_witness :
    Step.fileOf (processRec 0 recW9a) = some "slug_plot_12345.png" ∧
    Step.fileOf (processRec 2 recW9b) = some "slug_plot_2.png" := by
  have ha : processRec 0 recW9a = .saved renderW9a := by
    with_unfolding_all decide
  have hb : processRec 2 recW9b = .saved renderW9b := by
    with_unfolding_all decide
  have h1 := (C9_output_filename 0 recW9a renderW9a ha).2 12345
    (by decide)
    (by rw [show ((12345 : ℤ) : ℚ) = (12345 : ℚ) by norm_cast]; decide)
  have h2 := (C9_output_filename 2 recW9b renderW9b hb).1
    (by with_unfolding_all decide)
  constructor
  · rw [ha, Step.fileOf, h1]
    exact congrArg some (by decide)
  · rw [hb, Step.fileOf, h2]
    exact congrArg some (by decide)

/-! Claim C10: filenames are not guaranteed unique. Two rendered records
with the same timestamp metadata are both saved under the same
`slug_plot_<timestamp>.png` name regardless of their ordinals;
`plt.savefig` overwrites an existing path, so the later record's image
replaces the earlier one's and the run reports success with fewer
distinct files than rendered records. -/

/-- C10. Two successfully rendered records carrying the same timestamp
metadata are saved under the same filename, independent of their ordinal
positions. -/
theorem C10_duplicate_timestamps_collide (i j : ℕ) (r1 r2 : Rec)
    (rd1 rd2 : Render)
    (h1 : processRec i r1 = .saved rd1)
    (h2 : processRec j r2 = .saved rd2)
    (c : Cell)
    (ht1 : metaOf (r1.dataField.getD []) "timestamp" = some c)
    (ht2 : metaOf (r2.dataField.getD []) "timestamp" = some c) :
    rd1.file = rd2.file ∧
    rd1.file = "slug_plot_" ++ pyStrCell c ++ ".png" := by
  obtain ⟨s1, c1, hs1, hc1, hrd1⟩ := processRec_saved_spec i r1 rd1 h1
  obtain ⟨s2, c2, hs2, hc2, hrd2⟩ := processRec_saved_spec j r2 rd2 h2
  subst hrd1
  subst hrd2
  simp [ht1, ht2, fnameOf]

def entW10a : Entry :=
  [("tickLower", .num 0), ("tickUpper", .num 10),
   ("liquidity", .num (10 ^ 18)), ("slugName", .str "A"),
   ("timestamp", .num 5), ("currentTick", .num 1)]

def entW10b : Entry :=
  [("tickLower", .num 10), ("tickUpper", .num 20),
   ("liquidity", .num (10 ^ 18)), ("slugName", .str "B"),
   ("timestamp", .num 5), ("currentTick", .num 1)]

def recW10a : Rec := { top := [], dataField := some [entW10a] }
def recW10b : Rec := { top := [], dataField := some [entW10b] }

def renderW10a : Render :=
  { heights := [.hlog 1]
    marker := .val (.num 1)
    title := "Liquidity Positions (Slugs) at Timestamp 5"
    ylim := .ylog 1
    file := "slug_plot_5.png" }

def renderW10b : Render :=
  { heights := [.hlog 1]
    marker := .val (.num 1)
    title := "Liquidity Positions (Slugs) at Timestamp 5"
    ylim := .ylog 1
    file := "slug_plot_5.png" }

def lineJ10a : Line := [lbrace, 'a', rbrace]
def lineJ10b : Line := [lbrace, 'b', rbrace]

def parseW10 : Line → Option Rec := fun l =>
  if l = lineJ10a then some recW10a
  else if l = lineJ10b then some recW10b
  else none

def inputW10 : List Line := [['L', 'o', 'g', 's', ':'], lineJ10a, lineJ10b]

/-- Witness for C10: a concrete run renders two records with timestamp 5,
saves both under `slug_plot_5.png`, reports success, and the two saved
names deduplicate to a single distinct file. -/
theorem C10_duplicate_timestamps_collide_witness :
    renderW10a.file = renderW10b.file ∧
    run parseW10 inputW10 = .success [renderW10a.file, renderW10b.file] ∧
    [renderW10a.file, renderW10b.file].dedup.length = 1 := by
  refine ⟨(C10_duplicate_timestamps_collide 0 1 recW10a recW10b
      renderW10a renderW10b (by with_unfolding_all decide)
      (by with_unfolding_all decide) (.val (.num 5))
      (by with_unfolding_all decide) (by with_unfolding_all decide)).1,
    by with_unfolding_all decide, by decide⟩

/-! Claim C4: exit behaviour of the whole process. -/

theorem ball_lt_succ_iff (n : ℕ) (P : ℕ → Prop) :
    (∀ i < n + 1, P i) ↔ P 0 ∧ ∀ i < n, P (i + 1) := by
  constructor
  · intro h
    exact ⟨h 0 (Nat.succ_pos n), fun i hi => h (i + 1) (Nat.succ_lt_succ hi)⟩
  · rintro ⟨h0, h⟩ i hi
    cases i with
    | zero => exact h0
    | succ j => exact h j (Nat.lt_of_succ_lt_succ hi)

/-- The per-record loop finishes without an uncaught exception exactly
when no step errors. -/
theorem runSteps_snd_none_iff (parse : Line → Option Rec) (k : ℕ)
    (js : List Line) :
    (runSteps parse k js).2 = none ↔
      ∀ i < js.length,
        (stepLine parse (k + i) (js.getD i [])).isErr = false := by
  induction js generalizing k with
  | nil => simp [runSteps]
  | cons l ls ih =>
      rw [runSteps]
      have hsucc :
          (∀ i < ls.length + 1,
              (stepLine parse (k + i) ((l :: ls).getD i [])).isErr = false) ↔
            (stepLine parse k l).isErr = false ∧
              ∀ i < ls.length,
                (stepLine parse (k + 1 + i) (ls.getD i [])).isErr = false := by
        rw [ball_lt_succ_iff]
        constructor
        · rintro ⟨h0, h⟩
          refine ⟨by simpa using h0, fun i hi => ?_⟩
          have := h i hi
          rw [List.getD_cons_succ] at this
          rw [show k + 1 + i = k + (i + 1) by omega]
          exact this
        · rintro ⟨h0, h⟩
          refine ⟨by simpa using h0, fun i hi => ?_⟩
          rw [List.getD_cons_succ]
          rw [show k + (i + 1) = k + 1 + i by omega]
          exact h i hi
      rw [List.length_cons, hsucc]
      cases hstep : stepLine parse k l with
      | err e =>
          simp [Step.isErr]
      | saved rd =>
          simp only [Step.isErr, true_and]
          exact ih (k + 1)
      | skipParse =>
          simp only [Step.isErr, true_and]
          exact ih (k + 1)
      | skipNoData =>
          simp only [Step.isErr, true_and]
          exact ih (k + 1)

/-- C4 (amended). The process prints "no logs found" and exits non-zero
exactly when no line contains "Logs:"; prints "no JSON data found" and
exits non-zero exactly when the marker is found but the collected block
is empty; and otherwise exits zero with the completion message if and
only if additionally no record's processing raises an uncaught exception
(a record can also abort the run, exiting non-zero, e.g. on a KeyError
for a mandatory column missing from all entries or on the unguarded
`ax.axvline(None)` call). -/
theorem C4_exit_behaviour (parse : Line → Option Rec) (lines : List Line) :
    (run parse lines = .fatalNoLogs ↔ findLogs lines = none) ∧
    (∀ rest, findLogs lines = some rest →
        (run parse lines = .fatalNoJson ↔ collectJson rest = [])) ∧
    (exitZero (run parse lines) = true ↔
        ∃ rest, findLogs lines = some rest ∧ collectJson rest ≠ [] ∧
          ∀ i < (collectJson rest).length,
            (stepLine parse i ((collectJson rest).getD i [])).isErr
              = false) ∧
    (∀ fs, run parse lines = .success fs →
        outcomeMsg (run parse lines) =
          some "Charts have been generated and saved.") := by
  cases hf : findLogs lines with
  | none =>
      have hrun : run parse lines = .fatalNoLogs := by
        rw [run, hf]
      refine ⟨by simp [hrun], ?_, ?_, ?_⟩
      · intro rest hrest
        cases hrest
      · simp [hrun, exitZero]
      · intro fs hfs
        rw [hrun] at hfs
        cases hfs
  | some rest =>
      by_cases hj : collectJson rest = []
      · have hrun : run parse lines = .fatalNoJson := by
          rw [run, hf]
          simp [hj]
        refine ⟨by simp [hrun], ?_, ?_, ?_⟩
        · intro rs hrs
          cases hrs
          simp [hrun, hj]
        · constructor
          · intro h
            rw [hrun] at h
            simp [exitZero] at h
          · rintro ⟨rs, hrs, hne2, -⟩
            cases hrs
            exact absurd hj hne2
        · intro fs hfs
          rw [hrun] at hfs
          cases hfs
      · have hne : (collectJson rest).isEmpty = false := by
          cases hcj : collectJson rest with
          | nil => exact absurd hcj hj
          | cons a as => rfl
        rcases hrs : runSteps parse 0 (collectJson rest) with ⟨fs, eo⟩
        cases eo with
        | none =>
            have hrun : run parse lines = .success fs := by
              rw [run, hf]
              simp only [hne, Bool.false_eq_true, if_false, hrs]
            refine ⟨by simp [hrun], ?_, ?_, ?_⟩
            · intro rs hrs2
              cases hrs2
              simp [hrun, hj]
            · simp only [hrun, exitZero, true_iff]
              refine ⟨rest, rfl, hj, ?_⟩
              have := (runSteps_snd_none_iff parse 0 (collectJson rest)).mp
                (by rw [hrs])
              simpa using this
            · intro gs hgs
              simp [hrun, outcomeMsg]
        | some e =>
            have hrun : run parse lines = .crashed fs e := by
              rw [run, hf]
              simp only [hne, Bool.false_eq_true, if_false, hrs]
            refine ⟨by simp [hrun], ?_, ?_, ?_⟩
            · intro rs hrs2
              cases hrs2
              simp [hrun, hj]
            · constructor
              · intro h
                rw [hrun] at h
                simp [exitZero] at h
              · rintro ⟨rs, hrs2, -, hall⟩
                cases hrs2
                have := (runSteps_snd_none_iff parse 0 (collectJson rest)).mpr
                  (by simpa using hall)
                rw [hrs] at this
                cases this
            · intro gs hgs
              rw [hrun] at hgs
              cases hgs

def lineJ4 : Line := [lbrace, 'x', rbrace]

/-- A record whose single entry lacks the mandatory `liquidity` field
entirely, so the scaling line raises an uncaught KeyError. -/
def recC4 : Rec := { top := [], dataField := some [[("tickLower", Val.num 0)]] }

def parseC4 : Line → Option Rec := fun _ => some recC4

def inputC4 : List Line := [['L', 'o', 'g', 's', ':'], lineJ4]

/-- Counterexample to C4 as stated: the marker is found and the collected
block is non-empty, yet the process exits non-zero (the record's
processing raises an uncaught KeyError), with no image file written. -/
theorem C4_exit_behaviour_counterexample :
    findLogs inputC4 = some [lineJ4] ∧
    (collectJson [lineJ4]).isEmpty = false ∧
    run parseC4 inputC4 = .crashed [] (.keyError "liquidity") ∧
    exitZero (run parseC4 inputC4) = false := by
  with_unfolding_all decide

def lineJW4 : Line := [lbrace, 'w', rbrace]

def parseW4 : Line → Option Rec := fun _ => some recW10a

def inputW4 : List Line := [['L', 'o', 'g', 's', ':'], lineJW4]

/-- Witness for C4 (amended): a concrete run whose single record renders
fully exits zero. -/
theorem C4_exit_behaviour_witness :
    exitZero (run parseW4 inputW4) = true :=
  (C4_exit_behaviour parseW4 inputW4).2.2.1.mpr
    ⟨[lineJW4], by decide, by decide, by with_unfolding_all decide⟩

/-! Claim C5: skipped lines (parse failure, missing or empty `data`)
print a diagnostic, produce no chart, and do not disturb the processing
of the remaining lines. -/

/-- Sequential composition of two loop segments: an error in the first
segment short-circuits, otherwise the files concatenate. -/
def combine :
    List String × Option PyErr → List String × Option PyErr →
      List String × Option PyErr
  | (fs, some e), _ => (fs, some e)
  | (fs, none), (gs, eo) => (fs ++ gs, eo)

theorem runSteps_append (parse : Line → Option Rec) (k : ℕ)
    (xs ys : List Line) :
    runSteps parse k (xs ++ ys) =
      combine (runSteps parse k xs) (runSteps parse (k + xs.length) ys) := by
  induction xs generalizing k with
  | nil =>
      rcases hys : runSteps parse k ys with ⟨gs, eo⟩
      simp [runSteps, combine, hys]
  | cons l xs ih =>
      have hidx : k + (l :: xs).length = k + 1 + xs.length := by
        simp only [List.length_cons]
        omega
      rw [List.cons_append, runSteps, runSteps, hidx, ih (k + 1)]
      cases hstep : stepLine parse k l with
      | err e => rfl
      | saved rd =>
          rcases hxs : runSteps parse (k + 1) xs with ⟨fs, eo⟩
          rcases hys : runSteps parse (k + 1 + xs.length) ys with ⟨gs, eo2⟩
          cases eo with
          | none => simp [combine, hxs, hys]
          | some e => simp [combine, hxs, hys]
      | skipParse => rfl
      | skipNoData => rfl

/-- C5. A line whose step is a parse failure or an absent or empty `data`
list prints a diagnostic, contributes no chart, and the loop result is
exactly the combination of the segments before and after it; moreover a
parse failure always yields the parse-skip step and an absent or empty
`data` list always yields the no-data skip step. -/
theorem C5_skip_and_continue (parse : Line → Option Rec) (i : ℕ)
    (xs : List Line) (l : Line) (ys : List Line)
    (hskip : stepLine parse (i + xs.length) l = .skipParse ∨
             stepLine parse (i + xs.length) l = .skipNoData) :
    (stepDiag (stepLine parse (i + xs.length) l)).isSome = true ∧
    runSteps parse i (xs ++ l :: ys) =
      combine (runSteps parse i xs)
        (runSteps parse (i + xs.length + 1) ys) ∧
    (∀ n l', parse l' = none → stepLine parse n l' = .skipParse) ∧
    (∀ n l' r, parse l' = some r → r.dataField.getD [] = [] →
        stepLine parse n l' = .skipNoData) := by
  have hstep : runSteps parse (i + xs.length) (l :: ys) =
      runSteps parse (i + xs.length + 1) ys := by
    rw [runSteps]
    rcases hskip with h | h <;> rw [h]
  refine ⟨?_, ?_, ?_, ?_⟩
  · rcases hskip with h | h <;> rw [h] <;> rfl
  · rw [runSteps_append parse i xs (l :: ys), hstep]
  · intro n l' hp
    rw [stepLine, hp]
  · intro n l' r hp hd
    rw [stepLine, hp]
    show processRec n r = Step.skipNoData
    simp [processRec, hd]

def lineW5a : Line := [lbrace, 'p', rbrace]
def lineW5bad : Line := [lbrace, 'q', rbrace]
def lineW5c : Line := [lbrace, 's', rbrace]

def entW5a : Entry :=
  [("tickLower", .num 0), ("tickUpper", .num 10),
   ("liquidity", .num (10 ^ 18)), ("slugName", .str "A"),
   ("timestamp", .num 11), ("currentTick", .num 1)]

def entW5c : Entry :=
  [("tickLower", .num 10), ("tickUpper", .num 20),
   ("liquidity", .num (10 ^ 18)), ("slugName", .str "C"),
   ("timestamp", .num 22), ("currentTick", .num 1)]

def recW5a : Rec := { top := [], dataField := some [entW5a] }
def recW5c : Rec := { top := [], dataField := some [entW5c] }

/-- A parser failing exactly on the middle line. -/
def parseW5 : Line → Option Rec := fun l =>
  if l = lineW5a then some recW5a
  else if l = lineW5c then some recW5c
  else none

/-- Witness for C5: with the middle line unparsable, the run still
produces the charts of the surrounding records, in order. -/
theorem C5_skip_and_continue_witness :
    runSteps parseW5 0 ([lineW5a] ++ lineW5bad :: [lineW5c]) =
      combine (runSteps parseW5 0 [lineW5a])
        (runSteps parseW5 (0 + [lineW5a].length + 1) [lineW5c]) ∧
    runSteps parseW5 0 ([lineW5a] ++ lineW5bad :: [lineW5c]) =
      (["slug_plot_11.png", "slug_plot_22.png"], none) := by
  refine ⟨(C5_skip_and_continue parseW5 0 [lineW5a] lineW5bad [lineW5c]
      (Or.inl (by decide))).2.1, ?_⟩
  with_unfolding_all decide

/-! Claim C7: a slug entry missing a mandatory field. The claim as stated
is false: pandas only raises a KeyError when the column is absent from
the whole DataFrame, i.e. when every entry lacks the field; an entry-level
gap with the column present yields a NaN cell and processing continues. -/

def entC7full : Entry :=
  [("tickLower", .num 0), ("tickUpper", .num 10),
   ("liquidity", .num (10 ^ 18)), ("slugName", .str "A"),
   ("timestamp", .num 9), ("currentTick", .num 2)]

/-- An entry missing the mandatory `liquidity` field. It carries the
same `timestamp` and `currentTick` as the first entry, so the metadata
columns stay complete and the rendered strings are the unpromoted
(int64) ones that `pyStrVal` models. -/
def entC7gap : Entry :=
  [("tickLower", .num 10), ("tickUpper", .num 20), ("slugName", .str "B"),
   ("timestamp", .num 9), ("currentTick", .num 2)]

def recC7 : Rec := { top := [], dataField := some [entC7full, entC7gap] }

/-- Counterexample to C7 as stated: the second entry lacks the mandatory
`liquidity` field, yet the record is rendered and saved — the run does
not abort, because the column exists thanks to the first entry and the
missing cell is NaN. -/
theorem C7_missing_field_counterexample :
    (keys entC7gap).contains "liquidity" = false ∧
    Step.isSaved (processRec 0 recC7) = true ∧
    Step.isErr (processRec 0 recC7) = false := by
  with_unfolding_all decide

/-- C7 (amended). The uncaught lookup error occurs exactly at column
granularity: a mandatory field absent from every entry of a non-empty
`data` list makes the run abort with the KeyError of the first such
column in evaluation order (`liquidity`, then `tickUpper`, `tickLower`,
`slugName`); when every mandatory column exists (each field present in at
least one entry), the tick and liquidity cells are numeric or missing,
and `currentTick` metadata is present, the record is rendered and saved
even if individual entries have gaps. -/
theorem C7_missing_field_aborts (i : ℕ) (r : Rec) (slugs : List Entry)
    (hd : r.dataField = some slugs) (hne : slugs ≠ []) :
    (hasCol slugs "liquidity" = false →
        processRec i r = .err (.keyError "liquidity")) ∧
    (∀ scaled, hasCol slugs "liquidity" = true →
        scaleLiq (liqCells slugs) = .ok scaled →
        hasCol slugs "tickUpper" = false →
        processRec i r = .err (.keyError "tickUpper")) ∧
    (∀ scaled, hasCol slugs "liquidity" = true →
        scaleLiq (liqCells slugs) = .ok scaled →
        hasCol slugs "tickUpper" = true →
        hasCol slugs "tickLower" = false →
        processRec i r = .err (.keyError "tickLower")) ∧
    (∀ scaled, hasCol slugs "liquidity" = true →
        scaleLiq (liqCells slugs) = .ok scaled →
        hasCol slugs "tickUpper" = true →
        hasCol slugs "tickLower" = true →
        hasCol slugs "slugName" = false →
        processRec i r = .err (.keyError "slugName")) ∧
    (∀ scaled ws ct, hasCol slugs "liquidity" = true →
        scaleLiq (liqCells slugs) = .ok scaled →
        rowWidths slugs = .ok ws →
        hasCol slugs "tickUpper" = true →
        hasCol slugs "tickLower" = true →
        hasCol slugs "slugName" = true →
        metaOf slugs "currentTick" = some ct →
        processRec i r =
          .saved { heights := scaled.map heightOf
                   marker := ct
                   title := titleOf (metaOf slugs "timestamp")
                   ylim := ylimOf (cellsMax scaled)
                   file := fnameOf (metaOf slugs "timestamp") i }) := by
  have hemp : slugs.isEmpty = false := by
    cases slugs with
    | nil => exact absurd rfl hne
    | cons a as => rfl
  refine ⟨?_, ?_, ?_, ?_, ?_⟩
  · intro h
    simp [processRec, hd, hemp, h]
  · intro scaled hl hs hcu
    simp [processRec, hd, hemp, hl, hs, hcu]
  · intro scaled hl hs hcu hcl
    simp [processRec, hd, hemp, hl, hs, hcu, hcl]
  · intro scaled hl hs hcu hcl hsn
    simp [processRec, hd, hemp, hl, hs, hcu, hcl, hsn]
  · intro scaled ws ct hl hs hw hcu hcl hsn hct
    simp [processRec, hd, hemp, hl, hs, hw, hcu, hcl, hsn, hct]

def entC7only : Entry := [("tickLower", .num 0), ("slugName", .str "A")]

/-- A record whose every entry lacks `liquidity`: the column is missing
and the scaling line raises the uncaught KeyError. -/
def recC7all : Rec := { top := [], dataField := some [entC7only] }

/-- The chart rendered for `recC7` despite the second entry's gap. -/
def renderC7 : Render :=
  { heights := [.hlog 1, .hzero]
    marker := .val (.num 2)
    title := "Liquidity Positions (Slugs) at Timestamp 9"
    ylim := .ylog 1
    file := "slug_plot_9.png" }

/-- Witness for C7 (amended): a record whose every entry lacks
`liquidity` aborts with that KeyError, while the record with only an
entry-level gap is rendered and saved. -/
theorem C7_missing_field_aborts_witness :
    processRec 0 recC7all = .err (.keyError "liquidity") ∧
    processRec 0 recC7 = .saved renderC7 := by
  constructor
  · exact (C7_missing_field_aborts 0 recC7all [entC7only] rfl
      (by decide)).1 (by decide)
  · exact (C7_missing_field_aborts 0 recC7 [entC7full, entC7gap] rfl
      (by decide)).2.2.2.2 [.val (.num 1), .nan]
      [.val (.num 10), .val (.num 10)] (.val (.num 2))
      (by decide) (by with_unfolding_all rfl) (by with_unfolding_all rfl)
      (by decide) (by decide) (by decide) (by decide)

end PlotSlugs
